import Mathlib

/-!
Shallow embedding of the approval/permission/notification core of the
News_App (Dispatch) repository (`News_App_Project/news/`), together with
theorems checking the natural-language specification against it.

Conventions of the embedding:
  * Python strings are modelled as `String` where they are only carried
    around, and as `List Char` where the code computes on them
    (slicing, `len`, concatenation in `signals.post_to_twitter`).
  * Django model instances become Lean structures; a nullable foreign key
    becomes `Option Nat` (the id of the referenced row); `instance.pk`
    becomes `Option Nat` (`none` while the row is unsaved).
  * `request.user` becomes `Option User`: `none` is Django's
    `AnonymousUser` (`is_authenticated = False`, no `role` attribute);
    `some u` is an authenticated `CustomUser` with `u.role`.
  * Raised exceptions become `Except` errors; the database becomes an
    explicit `Db` value threaded through the operations.
-/

/-- The three roles of `CustomUser.ROLE_CHOICES` in `news/models.py`. -/
inductive Role where
  | reader
  | editor
  | journalist
deriving Repr, DecidableEq

/-- Embedding of `CustomUser` (`news/models.py`): an id, a role, and the
two reader subscription edge sets (`subscribed_publishers`,
`subscribed_journalists`), stored as lists of referenced ids. -/
structure User where
  id : Nat
  role : Role
  subscribed_publishers : List Nat
  subscribed_journalists : List Nat
deriving Repr, DecidableEq

/-- Embedding of `Article` (`news/models.py`).  `pk` is `none` for an
instance that has not been written to the database yet; `author` and
`publisher` are the two nullable foreign keys; `created_at` and
`approved_at` are timestamps modelled as naturals. -/
structure Article where
  pk : Option Nat
  title : String
  content : String
  author : Option Nat
  publisher : Option Nat
  created_at : Nat
  approved : Bool
  approved_by : Option Nat
  approved_at : Option Nat
deriving Repr, DecidableEq

/-- The persisted state seen by the operations: the article table plus a
counter of notification fan-out dispatches (a dispatch is one run of the
channel-sending part of `signals.handle_article_approval`). -/
structure Db where
  articles : List Article
  notifications : Nat
deriving Repr, DecidableEq

/-- Embedding of `CanApproveArticle.has_permission`
(`news/permissions.py`): allow iff the request user is authenticated and
has the editor role. -/
def CanApproveArticle.has_permission (actor : Option User) : Bool :=
  match actor with
  | none => false
  | some u => decide (u.role = Role.editor)

/-- Embedding of `CanViewArticle.has_object_permission`
(`news/permissions.py`), branch for branch: unauthenticated users are
denied; editors see everything; approved articles are visible to every
authenticated user; journalists see their own unapproved articles;
everyone else is denied. -/
def CanViewArticle.has_object_permission (actor : Option User) (obj : Article) : Bool :=
  match actor with
  | none => false
  | some user =>
    if user.role = Role.editor then true
    else if obj.approved then true
    else if user.role = Role.journalist ∧ obj.author = some user.id then true
    else false

/-- The `view_article` rule exactly as the specification words it:
allow iff `resource.approved == true`, OR `actor.role == editor`, OR
(`actor.role == journalist` AND `resource.author == actor`).  Written
from the spec sentence (not from the code) for comparison with
`CanViewArticle.has_object_permission`. -/
def viewArticleSpecAllow (actor : Option User) (article : Article) : Bool :=
  article.approved
  || (match actor with
      | some u => decide (u.role = Role.editor)
      | none => false)
  || (match actor with
      | some u => decide (u.role = Role.journalist) && decide (article.author = some u.id)
      | none => false)

/-- Embedding of `Article.clean` (`news/models.py`): raise a
`ValidationError` when both `author` and `publisher` are set, or when
neither is; succeed otherwise. -/
def Article.clean (a : Article) : Except String Unit :=
  if a.author.isSome && a.publisher.isSome then
    Except.error "Article cannot have both an author and a publisher."
  else if !a.author.isSome && !a.publisher.isSome then
    Except.error "Article must have either an author (journalist) or a publisher."
  else Except.ok ()

/-- Python's `data.get(key)` on the serializer payload: an absent key
(outer `none`) reads as `None`. -/
def data_get (field : Option (Option Nat)) : Option Nat :=
  match field with
  | some v => v
  | none => none

/-- The value `ArticleDetailSerializer.validate` (`news/serializers.py`)
checks for a field: the payload value when the key is present, else the
current instance's value on updates, else `None`. -/
def serializerMergedField (inst : Option Article) (field : Option (Option Nat))
    (proj : Article → Option Nat) : Option Nat :=
  match field with
  | some v => v
  | none =>
    match inst with
    | some i => proj i
    | none => none

/-- Embedding of `ArticleDetailSerializer.validate`
(`news/serializers.py`): reject when the merged author and publisher are
both set or both absent. -/
def ArticleDetailSerializer.validate (inst : Option Article)
    (dataAuthor dataPublisher : Option (Option Nat)) : Except String Unit :=
  let author := serializerMergedField inst dataAuthor Article.author
  let publisher := serializerMergedField inst dataPublisher Article.publisher
  if author.isSome && publisher.isSome then
    Except.error "Article cannot have both an author and a publisher."
  else if !author.isSome && !publisher.isSome then
    Except.error "Article must have either an author or a publisher."
  else Except.ok ()

/-- Embedding of `ArticleCreateSerializer.validate`
(`news/serializers.py`): the same mutual-exclusivity checks on the raw
payload, plus the rule that a journalist may only set themselves as
author. -/
def ArticleCreateSerializer.validate (user : Option User)
    (dataAuthor dataPublisher : Option (Option Nat)) : Except String Unit :=
  let author := data_get dataAuthor
  let publisher := data_get dataPublisher
  if author.isSome && publisher.isSome then
    Except.error "Article cannot have both an author and a publisher."
  else if !author.isSome && !publisher.isSome then
    Except.error "Article must have either an author or a publisher."
  else
    match user, author with
    | some u, some aid =>
      if u.role = Role.journalist ∧ aid ≠ u.id then
        Except.error "Journalists can only create articles for themselves."
      else Except.ok ()
    | _, _ => Except.ok ()

/-- A PUT/PATCH payload for `ArticleDetailSerializer`
(`news/serializers.py`): each writable field is `some v` when present in
the request body.  `id`, `approved_by`, `approved_at`, `created_at` and
`updated_at` are in `read_only_fields` and so cannot appear; `approved`
is NOT read-only there, hence the `approved` slot. -/
structure ArticlePayload where
  title : Option String
  content : Option String
  author : Option (Option Nat)
  publisher : Option (Option Nat)
  approved : Option Bool
deriving Repr, DecidableEq

/-- The update path of `ArticleDetailSerializer` as driven by
`ArticleViewSet.update`/`partial_update` (`news/api_views.py`): run
`validate` against the merged field values, then write every writable
field present in the payload onto the instance, leaving the read-only
fields untouched. -/
def ArticleDetailSerializer.update (inst : Article) (p : ArticlePayload) :
    Except String Article :=
  match ArticleDetailSerializer.validate (some inst) p.author p.publisher with
  | Except.error e => Except.error e
  | Except.ok _ =>
    Except.ok
      { inst with
        title := p.title.getD inst.title
        content := p.content.getD inst.content
        author := match p.author with | some v => v | none => inst.author
        publisher := match p.publisher with | some v => v | none => inst.publisher
        approved := p.approved.getD inst.approved }

/-- Embedding of the `pre_save` receiver `track_approval_changes`
(`news/signals.py`): for an instance with a primary key, re-fetch the
stored row and flag `_was_just_approved` when the stored `approved` is
false and the incoming one is true; a new instance (no pk) or a missing
row yields false. -/
def track_approval_changes (arts : List Article) (a : Article) : Bool :=
  match a.pk with
  | some pk =>
    match arts.find? (fun x => x.pk == some pk) with
    | some old => !old.approved && a.approved
    | none => false
  | none => false

/-- Outcome of one run of the `post_save` receiver
`handle_article_approval` (`news/signals.py`): the (possibly updated)
article and which channel sends were attempted and succeeded. -/
structure FanoutResult where
  article : Article
  emailAttempted : Bool
  emailSucceeded : Bool
  twitterAttempted : Bool
  twitterSucceeded : Bool
deriving Repr, DecidableEq

/-- Embedding of `handle_article_approval` (`news/signals.py`).
`wasJustApproved` is the `_was_just_approved` flag set by the `pre_save`
receiver; `emailFails`/`twitterFails` say whether the respective external
send raises when attempted.  The handler returns unless the flag is set;
it then fills a missing `approved_at` with `now` (before the try block),
and runs `send_email_to_subscribers` followed by `post_to_twitter`
inside a single try/except that only logs: an email failure therefore
skips the Twitter post, and no failure touches the approval fields. -/
def handle_article_approval (wasJustApproved : Bool) (inst : Article) (now : Nat)
    (emailFails twitterFails : Bool) : FanoutResult :=
  if !wasJustApproved then
    ⟨inst, false, false, false, false⟩
  else
    let a :=
      if inst.approved_at.isNone then
        { inst with approved_at := some now }
      else inst
    if emailFails then ⟨a, true, false, false, false⟩
    else if twitterFails then ⟨a, true, true, true, false⟩
    else ⟨a, true, true, true, true⟩

/-- Write an article row into the table: replace the row with the same
primary key when one exists, append otherwise. -/
def persistArticle (arts : List Article) (a : Article) : List Article :=
  if a.pk.isSome && arts.any (fun x => x.pk == a.pk) then
    arts.map (fun x => if x.pk == a.pk then a else x)
  else arts ++ [a]

/-- The full `Article.save` path (`news/models.py` together with
`news/signals.py`): `full_clean` first (a `ValidationError` aborts the
save and writes nothing), then the `pre_save` receiver computes
`_was_just_approved`, the row is written, and the `post_save` receiver
runs -- persisting its `approved_at` back-fill and dispatching the
notification fan-out exactly when the flag is set. -/
def article_save_with_signals (db : Db) (inst : Article) (now : Nat)
    (emailFails twitterFails : Bool) : Except String Db :=
  match Article.clean inst with
  | Except.error e => Except.error e
  | Except.ok _ =>
    let flag := track_approval_changes db.articles inst
    let fr := handle_article_approval flag inst now emailFails twitterFails
    Except.ok
      { articles := persistArticle db.articles fr.article
        notifications := db.notifications + (if flag then 1 else 0) }

/-- The distinguishable outcomes of the approve endpoints
(`ArticleViewSet.approve` in `news/api_views.py`, `approve_article` in
`news/views.py`): 403 for non-editors, 404 for a missing pk, the
already-approved 400/warning response, success, and the caught-exception
500 branch. -/
inductive ApproveResult where
  | forbidden
  | notFound
  | alreadyApproved
  | ok
  | serverError
deriving Repr, DecidableEq

/-- The updated article value that `ArticleViewSet.approve` writes on a
successful approval: `approved = True`, `approved_by = request.user`,
`approved_at = timezone.now()`. -/
def approve_updated_article (a : Article) (editorId now : Nat) : Article :=
  { a with approved := true, approved_by := some editorId, approved_at := some now }

/-- Embedding of `ArticleViewSet.approve` (`news/api_views.py`) behind
its `CanApproveArticle` permission gate: editors only; fetch the
article; answer the already-approved response without writing anything
when `approved` is already true; otherwise set `approved`,
`approved_by`, `approved_at` and save (which runs the signal
pipeline). -/
def ArticleViewSet.approve (db : Db) (actor : Option User) (pk : Nat) (now : Nat)
    (emailFails twitterFails : Bool) : ApproveResult × Db :=
  match actor with
  | none => (ApproveResult.forbidden, db)
  | some u =>
    if u.role = Role.editor then
      match db.articles.find? (fun x => x.pk == some pk) with
      | none => (ApproveResult.notFound, db)
      | some article =>
        if article.approved then (ApproveResult.alreadyApproved, db)
        else
          let updated := approve_updated_article article u.id now
          match article_save_with_signals db updated now emailFails twitterFails with
          | Except.ok db2 => (ApproveResult.ok, db2)
          | Except.error _ => (ApproveResult.serverError, db)
    else (ApproveResult.forbidden, db)

/-- The source-subscription test of the `subscribed` endpoint
(`news/api_views.py`): the article's publisher is among the reader's
subscribed publishers, or its author is among the reader's subscribed
journalists (a null foreign key matches neither `__in` filter). -/
def subscribed_source_match (user : User) (a : Article) : Bool :=
  (match a.publisher with
   | some p => user.subscribed_publishers.contains p
   | none => false)
  || (match a.author with
      | some j => user.subscribed_journalists.contains j
      | none => false)

/-- The ordering used by `order_by('-created_at')`: newest first. -/
def newerFirst (a b : Article) : Prop :=
  b.created_at ≤ a.created_at

instance : DecidableRel newerFirst :=
  fun a b => inferInstanceAs (Decidable (b.created_at ≤ a.created_at))

instance : IsTotal Article newerFirst :=
  ⟨fun a b => Nat.le_total b.created_at a.created_at⟩

instance : IsTrans Article newerFirst :=
  ⟨fun _ _ _ hab hbc => Nat.le_trans hbc hab⟩

/-- Embedding of `ArticleViewSet.subscribed` (`news/api_views.py`): a
400 error for any non-reader; for a reader, the approved articles whose
publisher or author is subscribed, ordered newest-created first. -/
def ArticleViewSet.subscribed (user : User) (articles : List Article) :
    Except String (List Article) :=
  if user.role = Role.reader then
    Except.ok (List.insertionSort newerFirst
      (articles.filter (fun a => a.approved && subscribed_source_match user a)))
  else Except.error "Only readers have subscriptions."

/-- The tweet-text composition of `post_to_twitter` (`news/signals.py`),
over the article title, the attributed source name, and the content,
modelled as character lists: build `title\n\nBy {source}\n\n`, and when
strictly more than 50 of the 250 allowed characters remain, append the
first `remaining - 3` content characters followed by `...`. -/
def post_to_twitter_tweet_text (title source_name content : List Char) : List Char :=
  let max_length : Int := 250
  let tweet_text := title ++ "\n\nBy ".data ++ source_name ++ "\n\n".data
  let remaining_chars : Int := max_length - tweet_text.length
  if remaining_chars > 50 then
    tweet_text ++ (content.take (remaining_chars - 3).toNat ++ "...".data)
  else tweet_text

/-- C4 -- `approve_article` is allowed exactly for editors: the
permission class grants an authenticated user iff their role is editor,
denies the unauthenticated, and in particular denies every journalist. -/
theorem c4_approve_only_editor :
    (∀ u : User, CanApproveArticle.has_permission (some u) = decide (u.role = Role.editor))
    ∧ CanApproveArticle.has_permission none = false
    ∧ (∀ u : User, u.role = Role.journalist → CanApproveArticle.has_permission (some u) = false) := by
  refine ⟨fun u => rfl, rfl, fun u h => ?_⟩
  simp [CanApproveArticle.has_permission, h]

theorem c4_approve_only_editor_witness :
    CanApproveArticle.has_permission (some ⟨7, Role.journalist, [], []⟩) = false :=
  c4_approve_only_editor.2.2 ⟨7, Role.journalist, [], []⟩ rfl

/-- C3 counterexample -- the claim's rule, as stated (allow iff approved
OR editor OR journalist-author), grants an unauthenticated actor access
to an approved article, but the code denies every unauthenticated
request; so the claimed biconditional is false at this input. -/
theorem c3_view_iff_counterexample :
    viewArticleSpecAllow none ⟨some 1, "t", "c", some 5, none, 0, true, some 2, some 3⟩ = true
    ∧ CanViewArticle.has_object_permission none ⟨some 1, "t", "c", some 5, none, 0, true, some 2, some 3⟩ = false := by
  exact ⟨rfl, rfl⟩

/-- C3 amended -- for authenticated actors the decision agrees exactly
with the spec's disjunction (approved OR editor OR journalist-author),
while an unauthenticated actor is always denied, even for approved
articles. -/
theorem c3_view_permission_characterization :
    (∀ (u : User) (article : Article),
        CanViewArticle.has_object_permission (some u) article
          = viewArticleSpecAllow (some u) article)
    ∧ ∀ article : Article, CanViewArticle.has_object_permission none article = false := by
  constructor
  · intro u article
    cases hr : u.role <;>
      cases ha : article.approved <;>
        simp [CanViewArticle.has_object_permission, viewArticleSpecAllow, hr, ha]
  · intro article
    rfl

lemma Article.clean_ok_iff (a : Article) :
    Article.clean a = Except.ok () ↔ (a.author.isSome ≠ a.publisher.isSome) := by
  cases ha : a.author <;> cases hp : a.publisher <;>
    simp [Article.clean, ha, hp]

lemma ArticleDetailSerializer.validate_ok_iff (inst : Option Article)
    (pa pp : Option (Option Nat)) :
    ArticleDetailSerializer.validate inst pa pp = Except.ok ()
      ↔ ((serializerMergedField inst pa Article.author).isSome
          ≠ (serializerMergedField inst pp Article.publisher).isSome) := by
  cases hA : serializerMergedField inst pa Article.author <;>
    cases hP : serializerMergedField inst pp Article.publisher <;>
      simp [ArticleDetailSerializer.validate, hA, hP]

lemma ArticleCreateSerializer.validate_ok_xor (user : Option User)
    (pa pp : Option (Option Nat))
    (h : ArticleCreateSerializer.validate user pa pp = Except.ok ()) :
    (data_get pa).isSome ≠ (data_get pp).isSome := by
  unfold ArticleCreateSerializer.validate at h
  cases hA : data_get pa <;> cases hP : data_get pp <;>
    rw [hA, hP] at h <;> simp at h ⊢

/-- C1 -- on every persistence path an article is accepted exactly when
one of `author`/`publisher` is set and the other is not: the model save
pipeline succeeds iff the XOR holds (and on failure returns only the
`ValidationError`, writing nothing), the detail serializer accepts iff
the merged field values satisfy the XOR, and a payload accepted by the
create serializer satisfies the XOR. -/
theorem c1_author_publisher_xor :
    (∀ (db : Db) (a : Article) (now : Nat) (ef tf : Bool),
        (∃ db2, article_save_with_signals db a now ef tf = Except.ok db2)
          ↔ (a.author.isSome ≠ a.publisher.isSome))
    ∧ (∀ (inst : Option Article) (pa pp : Option (Option Nat)),
        ArticleDetailSerializer.validate inst pa pp = Except.ok ()
          ↔ ((serializerMergedField inst pa Article.author).isSome
              ≠ (serializerMergedField inst pp Article.publisher).isSome))
    ∧ (∀ (user : Option User) (pa pp : Option (Option Nat)),
        ArticleCreateSerializer.validate user pa pp = Except.ok ()
          → (data_get pa).isSome ≠ (data_get pp).isSome) := by
  refine ⟨?_, ArticleDetailSerializer.validate_ok_iff, ArticleCreateSerializer.validate_ok_xor⟩
  intro db a now ef tf
  rw [← Article.clean_ok_iff a]
  cases hc : Article.clean a with
  | error e => simp [article_save_with_signals, hc]
  | ok v => cases v; simp [article_save_with_signals, hc]

theorem c1_author_publisher_xor_witness :
    ArticleCreateSerializer.validate none (some (some 5)) none = Except.ok ()
      ∧ (data_get (some (some 5))).isSome ≠ (data_get none).isSome :=
  ⟨rfl, c1_author_publisher_xor.2.2 none (some (some 5)) none rfl⟩

/-- C2 -- evidence that the claimed monotonicity of `approved` fails on
the code: `approved` is not in `ArticleDetailSerializer`'s
`read_only_fields`, so the API update path accepts a payload
`{"approved": false}` on an already-approved article and persists the
flip back to unapproved. -/
theorem c2_update_can_unapprove :
    ArticleDetailSerializer.update
        ⟨some 1, "T", "C", some 7, none, 0, true, some 2, some 10⟩
        ⟨none, none, none, none, some false⟩
      = Except.ok ⟨some 1, "T", "C", some 7, none, 0, false, some 2, some 10⟩ := rfl

/-- C6 counterexample -- the two channel sends run inside one shared
try/except in `handle_article_approval`, so when the email channel
raises, the social-post channel is never attempted: the claim that a
failure in either channel leaves the other channel's attempt unaffected
is false at this input (email failing, Twitter healthy). -/
theorem c6_email_failure_skips_social_post :
    (handle_article_approval true ⟨some 1, "T", "C", some 7, none, 0, true, some 2, some 9⟩ 5 true false).emailAttempted = true
    ∧ (handle_article_approval true ⟨some 1, "T", "C", some 7, none, 0, true, some 2, some 9⟩ 5 true false).twitterAttempted = false :=
  ⟨rfl, rfl⟩

/-- C6 amended -- channel failures are caught by a single guard around
the whole dispatch: no failure ever touches the committed approval
fields; a social-post failure leaves the email channel (which runs
first) attempted and successful; but an email failure skips the
social-post attempt. -/
theorem c6_fanout_failure_containment :
    ∀ (a : Article) (now : Nat) (ef tf : Bool),
      (handle_article_approval true a now ef tf).article.approved = a.approved
      ∧ (handle_article_approval true a now ef tf).article.approved_by = a.approved_by
      ∧ (handle_article_approval true a now ef tf).emailAttempted = true
      ∧ (ef = false →
          (handle_article_approval true a now ef tf).emailSucceeded = true
          ∧ (handle_article_approval true a now ef tf).twitterAttempted = true
          ∧ (handle_article_approval true a now ef tf).twitterSucceeded = !tf)
      ∧ (ef = true → (handle_article_approval true a now ef tf).twitterAttempted = false) := by
  intro a now ef tf
  cases ef <;> cases tf <;>
    by_cases h : a.approved_at.isNone <;>
      simp [handle_article_approval, h]

theorem c6_fanout_failure_containment_witness :
    (handle_article_approval true ⟨some 1, "T", "C", some 7, none, 0, true, some 2, some 9⟩ 5 false true).emailSucceeded = true
    ∧ (handle_article_approval true ⟨some 1, "T", "C", some 7, none, 0, true, some 2, some 9⟩ 5 false true).twitterAttempted = true
    ∧ (handle_article_approval true ⟨some 1, "T", "C", some 7, none, 0, true, some 2, some 9⟩ 5 false true).article.approved = true := by
  have h := c6_fanout_failure_containment ⟨some 1, "T", "C", some 7, none, 0, true, some 2, some 9⟩ 5 false true
  exact ⟨(h.2.2.2.1 rfl).1, (h.2.2.2.1 rfl).2.1, h.1⟩

/-- C7 -- a channel send is attempted exactly when the saved instance
has a primary key whose stored row was unapproved and the incoming
instance is approved: never on creation (no pk, or no stored row), even
with `approved = true`, and never on a save that does not flip
`approved` from false to true. -/
theorem c7_fanout_only_on_approval_transition :
    ∀ (arts : List Article) (a : Article) (now : Nat) (ef tf : Bool),
      ((handle_article_approval (track_approval_changes arts a) a now ef tf).emailAttempted = true
        ∨ (handle_article_approval (track_approval_changes arts a) a now ef tf).twitterAttempted = true)
      ↔ ∃ pk old, a.pk = some pk
          ∧ arts.find? (fun x => x.pk == some pk) = some old
          ∧ old.approved = false ∧ a.approved = true := by
  intro arts a now ef tf
  have hL : ((handle_article_approval (track_approval_changes arts a) a now ef tf).emailAttempted = true
        ∨ (handle_article_approval (track_approval_changes arts a) a now ef tf).twitterAttempted = true)
      ↔ track_approval_changes arts a = true := by
    cases hfl : track_approval_changes arts a <;>
      cases ef <;> cases tf <;>
        by_cases h : a.approved_at.isNone <;>
          simp [handle_article_approval, h]
  rw [hL]
  unfold track_approval_changes
  cases hpk : a.pk with
  | none => simp
  | some pk =>
    cases hf : arts.find? (fun x => x.pk == some pk) with
    | none => simp [hf]
    | some old =>
      cases ho : old.approved <;> cases ha : a.approved <;> simp [hf, ho, ha]

lemma find?_map_replace (l : List Article) (a : Article) (pk : Nat)
    (hpk : a.pk = some pk)
    (hfind : (l.find? (fun x => x.pk == some pk)).isSome = true) :
    (l.map (fun x => if x.pk == some pk then a else x)).find?
        (fun x => x.pk == some pk) = some a := by
  induction l with
  | nil => simp [List.find?] at hfind
  | cons y ys ih =>
    by_cases hy : (y.pk == some pk) = true
    · simp only [List.map_cons, hy, if_true]
      rw [List.find?_cons_of_pos]
      simp [hpk]
    · have hy' : (y.pk == some pk) = false := by
        cases h : (y.pk == some pk)
        · rfl
        · exact absurd h hy
      have hfind' : (ys.find? (fun x => x.pk == some pk)).isSome = true := by
        rwa [List.find?_cons_of_neg _ (by simp [hy'])] at hfind
      simp only [List.map_cons, hy', if_false]
      rw [List.find?_cons_of_neg _ (by simp [hy'])]
      exact ih hfind'

lemma persistArticle_find (arts : List Article) (a : Article) (pk : Nat)
    (hpk : a.pk = some pk)
    (hfind : (arts.find? (fun x => x.pk == some pk)).isSome = true) :
    (persistArticle arts a).find? (fun x => x.pk == some pk) = some a := by
  have hany : arts.any (fun x => x.pk == a.pk) = true := by
    obtain ⟨old, hold⟩ := Option.isSome_iff_exists.mp hfind
    have hmem : old ∈ arts := List.mem_of_find?_eq_some hold
    have hp := List.find?_some hold
    rw [hpk]
    exact List.any_eq_true.mpr ⟨old, hmem, hp⟩
  unfold persistArticle
  rw [hpk] at hany ⊢
  simp only [Option.isSome_some, Bool.true_and, hany, if_true]
  exact find?_map_replace arts a pk hpk hfind

/-- C10 -- whenever the fan-out handler runs for an approval transition
(`_was_just_approved` set by the `pre_save` receiver), it back-fills a
missing `approved_at` with the current time, so the article it leaves
behind -- which the save pipeline persists into the table -- always has
a non-null `approved_at`. -/
theorem c10_fanout_backfills_approved_at :
    ∀ (db : Db) (a : Article) (now : Nat) (ef tf : Bool) (pk : Nat),
      a.pk = some pk →
      track_approval_changes db.articles a = true →
      Article.clean a = Except.ok () →
      (handle_article_approval true a now ef tf).article.approved_at.isSome = true
      ∧ (a.approved_at = none →
          (handle_article_approval true a now ef tf).article.approved_at = some now)
      ∧ article_save_with_signals db a now ef tf
          = Except.ok
              ⟨persistArticle db.articles (handle_article_approval true a now ef tf).article,
               db.notifications + 1⟩
      ∧ (persistArticle db.articles (handle_article_approval true a now ef tf).article).find?
            (fun x => x.pk == some pk)
          = some (handle_article_approval true a now ef tf).article := by
  intro db a now ef tf pk hpk htrack hclean
  have harticle : (handle_article_approval true a now ef tf).article
      = (if a.approved_at.isNone then { a with approved_at := some now } else a) := by
    cases ef <;> cases tf <;> by_cases h : a.approved_at.isNone <;>
      simp [handle_article_approval, h]
  have hsome : (handle_article_approval true a now ef tf).article.approved_at.isSome = true := by
    rw [harticle]
    cases h : a.approved_at with
    | none => simp [h]
    | some t => simp [h]
  have hfindOld : (db.articles.find? (fun x => x.pk == some pk)).isSome = true := by
    cases hf : db.articles.find? (fun x => x.pk == some pk) with
    | none => simp [track_approval_changes, hpk, hf] at htrack
    | some old => simp
  have hpk2 : (handle_article_approval true a now ef tf).article.pk = some pk := by
    rw [harticle]
    by_cases h : a.approved_at.isNone <;> simp [h, hpk]
  refine ⟨hsome, ?_, ?_, ?_⟩
  · intro hnone
    rw [harticle]
    simp [hnone]
  · unfold article_save_with_signals
    rw [hclean, htrack]
    simp
  · exact persistArticle_find db.articles _ pk hpk2 hfindOld

theorem c10_fanout_backfills_approved_at_witness :
    track_approval_changes [⟨some 1, "T", "C", some 7, none, 0, false, none, none⟩]
        ⟨some 1, "T", "C", some 7, none, 0, true, none, none⟩ = true
    ∧ (handle_article_approval true ⟨some 1, "T", "C", some 7, none, 0, true, none, none⟩ 5 false false).article.approved_at.isSome = true := by
  have h := c10_fanout_backfills_approved_at
    ⟨[⟨some 1, "T", "C", some 7, none, 0, false, none, none⟩], 0⟩
    ⟨some 1, "T", "C", some 7, none, 0, true, none, none⟩ 5 false false 1
    rfl (by decide) rfl
  exact ⟨by decide, h.1⟩

/-- C5 -- approving an already-approved article: the first approve call
on a pending article succeeds and dispatches exactly one notification
fan-out; the second call returns the distinguishable already-approved
response, changes nothing in the database (so `approved_by` and
`approved_at` keep the values the first call wrote), and dispatches no
further fan-out -- one notification attempt in total across both
calls. -/
theorem c5_second_approve_distinguishable_noop :
    ∀ (db : Db) (u : User) (pk now1 now2 : Nat) (ef tf : Bool) (a : Article),
      u.role = Role.editor →
      db.articles.find? (fun x => x.pk == some pk) = some a →
      a.pk = some pk →
      a.approved = false →
      a.author.isSome ≠ a.publisher.isSome →
      (ArticleViewSet.approve db (some u) pk now1 ef tf).1 = ApproveResult.ok
      ∧ (ArticleViewSet.approve (ArticleViewSet.approve db (some u) pk now1 ef tf).2
            (some u) pk now2 ef tf).1 = ApproveResult.alreadyApproved
      ∧ (ArticleViewSet.approve (ArticleViewSet.approve db (some u) pk now1 ef tf).2
            (some u) pk now2 ef tf).2 = (ArticleViewSet.approve db (some u) pk now1 ef tf).2
      ∧ (ArticleViewSet.approve db (some u) pk now1 ef tf).2.notifications
          = db.notifications + 1 := by
  intro db u pk now1 now2 ef tf a hrole hfind hpk happ hxor
  have hpkU : (approve_updated_article a u.id now1).pk = some pk := hpk
  have hclean2 : Article.clean (approve_updated_article a u.id now1) = Except.ok () :=
    (Article.clean_ok_iff _).mpr hxor
  have htrack2 : track_approval_changes db.articles (approve_updated_article a u.id now1) = true := by
    simp [track_approval_changes, approve_updated_article, hpk, hfind, happ]
  have hhandle : (handle_article_approval true (approve_updated_article a u.id now1)
      now1 ef tf).article = approve_updated_article a u.id now1 := by
    cases ef <;> cases tf <;> simp [handle_article_approval, approve_updated_article]
  have hsave : article_save_with_signals db (approve_updated_article a u.id now1) now1 ef tf
      = Except.ok
          ⟨persistArticle db.articles (approve_updated_article a u.id now1),
           db.notifications + 1⟩ := by
    simp [article_save_with_signals, hclean2, htrack2, hhandle]
  have h1 : ArticleViewSet.approve db (some u) pk now1 ef tf
      = (ApproveResult.ok,
         ⟨persistArticle db.articles (approve_updated_article a u.id now1),
          db.notifications + 1⟩) := by
    simp [ArticleViewSet.approve, hrole, hfind, happ, hsave]
  have happr : (approve_updated_article a u.id now1).approved = true := rfl
  have hfind2 : (persistArticle db.articles (approve_updated_article a u.id now1)).find?
        (fun x => x.pk == some pk)
      = some (approve_updated_article a u.id now1) :=
    persistArticle_find _ _ pk hpkU (by rw [hfind]; rfl)
  have h2 : ArticleViewSet.approve
      ⟨persistArticle db.articles (approve_updated_article a u.id now1),
       db.notifications + 1⟩
      (some u) pk now2 ef tf
      = (ApproveResult.alreadyApproved,
         ⟨persistArticle db.articles (approve_updated_article a u.id now1),
          db.notifications + 1⟩) := by
    simp [ArticleViewSet.approve, hrole, hfind2, happr]
  have hq2 : (ArticleViewSet.approve db (some u) pk now1 ef tf).2
      = ⟨persistArticle db.articles (approve_updated_article a u.id now1),
         db.notifications + 1⟩ := by rw [h1]
  refine ⟨by rw [h1], ?_, ?_, ?_⟩
  · rw [hq2, h2]
  · rw [hq2, h2]
  · rw [hq2]

theorem c5_second_approve_distinguishable_noop_witness :
    (⟨2, Role.editor, [], []⟩ : User).role = Role.editor
    ∧ (ArticleViewSet.approve ⟨[⟨some 1, "T", "C", some 7, none, 0, false, none, none⟩], 0⟩
        (some ⟨2, Role.editor, [], []⟩) 1 5 false false).1 = ApproveResult.ok
    ∧ (ArticleViewSet.approve
        (ArticleViewSet.approve ⟨[⟨some 1, "T", "C", some 7, none, 0, false, none, none⟩], 0⟩
          (some ⟨2, Role.editor, [], []⟩) 1 5 false false).2
        (some ⟨2, Role.editor, [], []⟩) 1 6 false false).1 = ApproveResult.alreadyApproved
    ∧ (ArticleViewSet.approve ⟨[⟨some 1, "T", "C", some 7, none, 0, false, none, none⟩], 0⟩
        (some ⟨2, Role.editor, [], []⟩) 1 5 false false).2.notifications = 0 + 1 := by
  have h := c5_second_approve_distinguishable_noop
    ⟨[⟨some 1, "T", "C", some 7, none, 0, false, none, none⟩], 0⟩
    ⟨2, Role.editor, [], []⟩ 1 5 6 false false
    ⟨some 1, "T", "C", some 7, none, 0, false, none, none⟩
    rfl (by decide) rfl rfl (by decide)
  exact ⟨rfl, h.1, h.2.1, h.2.2.2⟩

/-- C8 -- for every reader, the subscribed endpoint returns exactly the
approved articles whose publisher or author the reader is subscribed to
(a permutation of that filter of the table), ordered newest-created
first; a reader with no subscriptions of either kind gets the empty
sequence whatever the table holds. -/
theorem c8_subscribed_feed :
    ∀ (user : User) (articles : List Article),
      user.role = Role.reader →
      ∃ out, ArticleViewSet.subscribed user articles = Except.ok out
        ∧ List.Perm out
            (articles.filter (fun a => a.approved && subscribed_source_match user a))
        ∧ List.Sorted newerFirst out
        ∧ (∀ a, a ∈ out
            ↔ a ∈ articles ∧ (a.approved && subscribed_source_match user a) = true)
        ∧ (user.subscribed_publishers = [] → user.subscribed_journalists = [] → out = []) := by
  intro user articles hrole
  refine ⟨List.insertionSort newerFirst
      (articles.filter (fun a => a.approved && subscribed_source_match user a)),
    ?_, ?_, ?_, ?_, ?_⟩
  · simp [ArticleViewSet.subscribed, hrole]
  · exact List.perm_insertionSort newerFirst _
  · exact List.sorted_insertionSort newerFirst _
  · intro a
    rw [(List.perm_insertionSort newerFirst _).mem_iff, List.mem_filter]
  · intro hp hj
    have hnil : articles.filter (fun a => a.approved && subscribed_source_match user a) = [] := by
      rw [List.filter_eq_nil_iff]
      intro a _
      cases hpub : a.publisher <;> cases haut : a.author <;>
        simp [subscribed_source_match, hp, hj, hpub, haut]
    rw [hnil]
    rfl

theorem c8_subscribed_feed_witness :
    (⟨1, Role.reader, [], []⟩ : User).role = Role.reader
    ∧ (∃ out, ArticleViewSet.subscribed ⟨1, Role.reader, [], []⟩
          [⟨some 1, "A", "x", some 7, none, 3, true, some 2, some 4⟩,
           ⟨some 2, "B", "y", none, some 9, 2, true, some 2, some 4⟩,
           ⟨some 3, "Z", "z", some 8, none, 1, true, some 2, some 4⟩] = Except.ok out
        ∧ List.Perm out
            (List.filter (fun a => a.approved && subscribed_source_match ⟨1, Role.reader, [], []⟩ a)
              [⟨some 1, "A", "x", some 7, none, 3, true, some 2, some 4⟩,
               ⟨some 2, "B", "y", none, some 9, 2, true, some 2, some 4⟩,
               ⟨some 3, "Z", "z", some 8, none, 1, true, some 2, some 4⟩])
        ∧ List.Sorted newerFirst out
        ∧ (∀ a, a ∈ out
            ↔ a ∈ [⟨some 1, "A", "x", some 7, none, 3, true, some 2, some 4⟩,
                   ⟨some 2, "B", "y", none, some 9, 2, true, some 2, some 4⟩,
                   ⟨some 3, "Z", "z", some 8, none, 1, true, some 2, some 4⟩]
              ∧ (a.approved && subscribed_source_match ⟨1, Role.reader, [], []⟩ a) = true)
        ∧ ((⟨1, Role.reader, [], []⟩ : User).subscribed_publishers = []
            → (⟨1, Role.reader, [], []⟩ : User).subscribed_journalists = [] → out = [])) :=
  ⟨rfl, c8_subscribed_feed ⟨1, Role.reader, [], []⟩
      [⟨some 1, "A", "x", some 7, none, 3, true, some 2, some 4⟩,
       ⟨some 2, "B", "y", none, some 9, 2, true, some 2, some 4⟩,
       ⟨some 3, "Z", "z", some 8, none, 1, true, some 2, some 4⟩] rfl⟩

set_option maxRecDepth 8000 in
/-- C9 counterexample -- two failures of the claim at concrete inputs:
a 300-character title makes the composed post 308 characters long (the
title-plus-source header is never truncated), violating the claimed
250-character bound; and with exactly 50 characters remaining after the
header and non-empty content, the code skips the excerpt although the
claim requires it to be included at 50 or more remaining. -/
theorem c9_tweet_length_counterexample :
    ¬((post_to_twitter_tweet_text (List.replicate 300 'a') "s".data "c".data).length ≤ 250)
    ∧ (250 : Int) - ((List.replicate 190 'b') ++ "\n\nBy ".data ++ "abc".data ++ "\n\n".data).length = 50
    ∧ post_to_twitter_tweet_text (List.replicate 190 'b') "abc".data "0123456789".data
        = (List.replicate 190 'b') ++ "\n\nBy ".data ++ "abc".data ++ "\n\n".data
    ∧ "0123456789".data ≠ [] := by
  refine ⟨by decide, by decide, by decide, by decide⟩

/-- C9 amended -- the composed post is the `title\n\nBy source\n\n`
header plus a content excerpt sized to fill the space remaining under
250 characters; the excerpt is included exactly when STRICTLY more than
50 characters remain after the header (at exactly 50 or fewer it is
skipped), and the post stays within 250 characters provided the header
alone is at most 250 characters -- the header itself is never
truncated. -/
theorem c9_tweet_composition :
    ∀ title source_name content : List Char,
      ((title ++ "\n\nBy ".data ++ source_name ++ "\n\n".data).length ≤ 250 →
        (post_to_twitter_tweet_text title source_name content).length ≤ 250)
      ∧ ((title ++ "\n\nBy ".data ++ source_name ++ "\n\n".data).length
            < (post_to_twitter_tweet_text title source_name content).length
          ↔ (250 : Int) - (title ++ "\n\nBy ".data ++ source_name ++ "\n\n".data).length > 50)
      ∧ ((250 : Int) - (title ++ "\n\nBy ".data ++ source_name ++ "\n\n".data).length ≤ 50 →
        post_to_twitter_tweet_text title source_name content
          = title ++ "\n\nBy ".data ++ source_name ++ "\n\n".data) := by
  intro title source_name content
  have h3 : ("...".data : List Char).length = 3 := rfl
  have h5 : ("\n\nBy ".data : List Char).length = 5 := rfl
  have h2 : ("\n\n".data : List Char).length = 2 := rfl
  by_cases hr : (250 : Int) - (title ++ "\n\nBy ".data ++ source_name ++ "\n\n".data).length > 50
  · have hres : post_to_twitter_tweet_text title source_name content
        = (title ++ "\n\nBy ".data ++ source_name ++ "\n\n".data)
          ++ (content.take
                (((250 : Int) - (title ++ "\n\nBy ".data ++ source_name ++ "\n\n".data).length - 3).toNat)
              ++ "...".data) := by
      simp only [post_to_twitter_tweet_text]
      rw [if_pos hr]
    refine ⟨?_, ?_, ?_⟩
    · intro _
      rw [hres]
      simp only [List.length_append, List.length_take, h3, h5, h2] at hr ⊢
      omega
    · rw [hres]
      simp only [List.length_append, List.length_take, h3, h5, h2] at hr ⊢
      exact iff_of_true (by omega) hr
    · intro h
      exact absurd hr (not_lt.mpr h)
  · have hres : post_to_twitter_tweet_text title source_name content
        = title ++ "\n\nBy ".data ++ source_name ++ "\n\n".data := by
      simp only [post_to_twitter_tweet_text]
      rw [if_neg hr]
    refine ⟨?_, ?_, ?_⟩
    · intro h
      rw [hres]
      exact h
    · rw [hres]
      exact iff_of_false (lt_irrefl _) hr
    · intro _
      exact hres

theorem c9_tweet_composition_witness :
    ("Title".data ++ "\n\nBy ".data ++ "src".data ++ "\n\n".data).length ≤ 250
    ∧ (post_to_twitter_tweet_text "Title".data "src".data "Content".data).length ≤ 250 :=
  ⟨by decide, (c9_tweet_composition "Title".data "src".data "Content".data).1 (by decide)⟩
